import Mathlib

/-!
Verification of the p2witter network/protocol subsystem.

The definitions below are a shallow embedding of `src/core/protocol.rs`
(message type, `encode`, the streaming `Decoder` with `feed`/`drain`,
`signing_bytes`, `disconnect_reason_id`) and of the frame-processing part of
`src/network_handler.rs` (the per-frame dispatch of the network loop and the
`Chat` broadcast command).  Bytes are modelled as `Nat` (a byte on the wire is
always `< 256`; the decoder only inspects values, so no bound is needed for
the lemmas), `Vec<u8>` as `List Nat`, Rust `Option` as `Option`, and
`Result<Vec<Message>, ProtocolError>` as `Except ProtocolError (List Message)`.
-/

namespace Protocol


/-- `Message` from `src/core/protocol.rs`: version, kind, attenuation,
payload, timestamp, optional public key, optional signature. -/
structure Message where
  version : Nat
  kind : Nat
  attenuation : Nat
  payload : List Nat
  timestamp : Nat
  public_key : Option (List Nat)
  signature : Option (List Nat)
deriving DecidableEq, Repr

/-- `u32::to_be_bytes`.  Byte extraction by division and remainder agrees with
Rust's `as u32` truncation: each byte only depends on `n % 2^32`. -/
def be32 (n : Nat) : List Nat :=
  [n / 16777216 % 256, n / 65536 % 256, n / 256 % 256, n % 256]

/-- `u64::to_be_bytes`. -/
def be64 (n : Nat) : List Nat :=
  [n / 72057594037927936 % 256, n / 281474976710656 % 256,
   n / 1099511627776 % 256, n / 4294967296 % 256,
   n / 16777216 % 256, n / 65536 % 256, n / 256 % 256, n % 256]

/-- `u32::from_be_bytes`. -/
def fromBe32 (b0 b1 b2 b3 : Nat) : Nat :=
  ((b0 * 256 + b1) * 256 + b2) * 256 + b3

/-- `u64::from_be_bytes`. -/
def fromBe64 (b0 b1 b2 b3 b4 b5 b6 b7 : Nat) : Nat :=
  ((((((b0 * 256 + b1) * 256 + b2) * 256 + b3) * 256 + b4) * 256 + b5)
      * 256 + b6) * 256 + b7

/-- Bytes of an optional field (`pk_bytes` / `sig_bytes` in `encode`). -/
def optBytes : Option (List Nat) → List Nat
  | some l => l
  | none => []

/-- Length written for an optional field (`pk_len` / `sig_len` in `encode`,
before the `as u32` truncation that `be32` performs). -/
def optLen (o : Option (List Nat)) : Nat := (optBytes o).length

/-- `encode` from `src/core/protocol.rs`: version, kind, attenuation,
payload length (be u32), pk length, sig length, timestamp (be u64),
pk bytes, sig bytes, payload bytes. -/
def encode (m : Message) : List Nat :=
  m.version :: m.kind :: m.attenuation ::
    (be32 m.payload.length ++ be32 (optLen m.public_key) ++
     be32 (optLen m.signature) ++ be64 m.timestamp ++
     (optBytes m.public_key ++ (optBytes m.signature ++ m.payload)))

/-- `ProtocolError` from `src/core/protocol.rs`. -/
inductive ProtocolError where
  | LengthTooLarge : Nat → ProtocolError
  | UnsupportedVersion : Nat → ProtocolError
  | BadSignature : ProtocolError
  | BadAttenuation : Nat → ProtocolError
deriving DecidableEq, Repr

/-- One message frame assembled from raw components; `encode` produces
exactly this shape (`encode_eq_mkFrame`), but `mkFrame` also describes frames
whose pk/sig lengths are arbitrary, which the decoder accepts. -/
def mkFrame (v k a ts : Nat) (pkB sigB payB : List Nat) : List Nat :=
  v :: k :: a ::
    (be32 payB.length ++ be32 pkB.length ++ be32 sigB.length ++ be64 ts ++
     (pkB ++ (sigB ++ payB)))

/-- The message the decoder produces for a frame built by `mkFrame`:
optional fields are reconstructed as `some` exactly when their length
field is positive. -/
def frameMsg (v k a ts : Nat) (pkB sigB payB : List Nat) : Message :=
  { version := v, kind := k, attenuation := a, payload := payB,
    timestamp := ts,
    public_key := if 0 < pkB.length then some pkB else none,
    signature := if 0 < sigB.length then some sigB else none }

/-- `Decoder::drain` from `src/core/protocol.rs`, written as a recursion on
the buffer: the Rust loop `break`s (returning the messages decoded so far and
keeping the buffer) when fewer than 23 bytes or fewer than
`23 + P + S + L` bytes are buffered, returns an error (keeping the buffer,
with the already-decoded messages discarded) when a header check fails, and
otherwise consumes one frame and continues.  The result pairs
`Result<Vec<Message>, ProtocolError>` with the buffer left in the decoder. -/
def drainLoop (mp : Nat) (buf : List Nat) :
    Except ProtocolError (List Message) × List Nat :=
  match buf with
  | b0 :: b1 :: b2 :: b3 :: b4 :: b5 :: b6 :: b7 :: b8 :: b9 :: b10 ::
      b11 :: b12 :: b13 :: b14 :: b15 :: b16 :: b17 :: b18 :: b19 :: b20 ::
      b21 :: b22 :: tail =>
    let buf0 := b0 :: b1 :: b2 :: b3 :: b4 :: b5 :: b6 :: b7 :: b8 :: b9 ::
      b10 :: b11 :: b12 :: b13 :: b14 :: b15 :: b16 :: b17 :: b18 :: b19 ::
      b20 :: b21 :: b22 :: tail
    if b0 ≠ 1 then (.error (.UnsupportedVersion b0), buf0)
    else if ¬(b1 = 1 ∨ b1 = 2 ∨ b1 = 3 ∨ b1 = 4) then
      (.error (.UnsupportedVersion b1), buf0)
    else if 50 < b2 then (.error (.BadAttenuation b2), buf0)
    else
      let L := fromBe32 b3 b4 b5 b6
      if mp < L then (.error (.LengthTooLarge L), buf0)
      else
        let P := fromBe32 b7 b8 b9 b10
        let S := fromBe32 b11 b12 b13 b14
        let ts := fromBe64 b15 b16 b17 b18 b19 b20 b21 b22
        if tail.length < P + S + L then (.ok [], buf0)
        else
          let pk := if 0 < P then some (tail.take P) else none
          let sig := if 0 < S then some ((tail.drop P).take S) else none
          let pay := (tail.drop (P + S)).take L
          match drainLoop mp (tail.drop (P + S + L)) with
          | (.ok msgs, buf2) =>
              (.ok (⟨b0, b1, b2, pay, ts, pk, sig⟩ :: msgs), buf2)
          | (.error e, buf2) => (.error e, buf2)
  | short => (.ok [], short)
termination_by buf.length
decreasing_by
  simp [List.length_drop]
  omega

/-- `Decoder` from `src/core/protocol.rs`: internal byte buffer plus the
`max_payload` cap. -/
structure Decoder where
  buf : List Nat
  max_payload : Nat
deriving Repr

/-- `Decoder::with_max_payload`. -/
def Decoder.with_max_payload (mp : Nat) : Decoder := ⟨[], mp⟩

/-- `Decoder::new` (512 KiB default cap). -/
def Decoder.new : Decoder := Decoder.with_max_payload (512 * 1024)

/-- `Decoder::feed`. -/
def Decoder.feed (d : Decoder) (data : List Nat) : Decoder :=
  { d with buf := d.buf ++ data }

/-- `Decoder::drain`: result together with the mutated decoder. -/
def Decoder.drain (d : Decoder) :
    Except ProtocolError (List Message) × Decoder :=
  ((drainLoop d.max_payload d.buf).1,
   { d with buf := (drainLoop d.max_payload d.buf).2 })

/-- `Decoder::buffered_len`. -/
def Decoder.buffered_len (d : Decoder) : Nat := d.buf.length

/-- `signing_bytes` from `src/core/protocol.rs`:
version, kind, payload length (be u32), timestamp (be u64), payload. -/
def signing_bytes (m : Message) : List Nat :=
  m.version :: m.kind ::
    (be32 m.payload.length ++ be64 m.timestamp ++ m.payload)

/-- `disconnect_reason_id` from `src/core/protocol.rs`. -/
def disconnect_reason_id (m : Message) : Option Nat :=
  if m.kind ≠ 4 then none
  else if m.payload.length < 4 then none
  else some (fromBe32 (m.payload.getD 0 0) (m.payload.getD 1 0)
    (m.payload.getD 2 0) (m.payload.getD 3 0))

/-- `Message::disconnect` from `src/core/protocol.rs`. -/
def Message.disconnect (ts reason_id : Nat) : Message :=
  { version := 1, kind := 4, attenuation := 0, payload := be32 reason_id,
    timestamp := ts, public_key := none, signature := none }

/-- Well-formedness of an optional pk/sig field for exact round-tripping:
either absent, or non-empty with a length that fits in a `u32`. -/
def optWf (o : Option (List Nat)) : Prop :=
  match o with
  | none => True
  | some l => l ≠ [] ∧ l.length < 4294967296

instance (o : Option (List Nat)) : Decidable (optWf o) := by
  unfold optWf
  cases o with
  | none => exact inferInstance
  | some l => exact inferInstance

/-- Field ranges under which a `Message` survives the decoder's checks and
round-trips exactly: version 1, kind in 1..4, attenuation at most 50,
payload within the cap and within `u32`, timestamp within `u64`, and
pk/sig fields absent or non-empty (within `u32`). -/
def WfMsg (mp : Nat) (m : Message) : Prop :=
  m.version = 1 ∧ (m.kind = 1 ∨ m.kind = 2 ∨ m.kind = 3 ∨ m.kind = 4) ∧
  m.attenuation ≤ 50 ∧ m.payload.length ≤ mp ∧
  m.payload.length < 4294967296 ∧
  m.timestamp < 18446744073709551616 ∧
  optWf m.public_key ∧ optWf m.signature

instance (mp : Nat) (m : Message) : Decidable (WfMsg mp m) := by
  unfold WfMsg
  infer_instance

/-- Feed each chunk in turn, draining after each chunk; returns the list of
drain results in order together with the final decoder. -/
def drainOutputs (d : Decoder) :
    List (List Nat) → List (Except ProtocolError (List Message)) × Decoder
  | [] => ([], d)
  | c :: cs =>
      let r := (d.feed c).drain
      let rest := drainOutputs r.2 cs
      (r.1 :: rest.1, rest.2)

/-- The drain results the specification predicts when the chunks of a single
frame of total length `flen` carrying message `m` are fed one at a time,
`fed` bytes having already been fed: an empty batch while the frame is
incomplete, the batch `[m]` for the chunk that completes it, and empty
batches afterwards. -/
def c1Expected (flen : Nat) (m : Message) :
    Nat → List (List Nat) → List (Except ProtocolError (List Message))
  | _, [] => []
  | fed, c :: cs =>
      (if fed + c.length < flen then Except.ok []
       else if fed < flen then Except.ok [m] else Except.ok []) ::
      c1Expected flen m (fed + c.length) cs


/-- The C1 counterexample message: all the ranges the claim lists hold
(version 1, kind 1, attenuation 0, empty payload), but the public key is
`some []` (fields in constructor order: version, kind, attenuation,
payload, timestamp, public_key, signature). -/
def cexMsg : Message := ⟨1, 1, 0, [], 0, some [], none⟩

/-- What the decoder actually returns for `encode cexMsg`: the key is gone. -/
def cexMsgDecoded : Message := ⟨1, 1, 0, [], 0, none, none⟩

/-- A signed two-byte chat message used by the C1 witness (fields: version,
kind, attenuation, payload, timestamp, public_key, signature). -/
def witMsg : Message := ⟨1, 1, 0, [5, 6], 77, some [9], some [8, 8]⟩

/-- The C1 witness split of `encode witMsg`: after 10 bytes. -/
def witChunks : List (List Nat) :=
  [(encode witMsg).take 10, (encode witMsg).drop 10]

end Protocol

namespace Handler

open Protocol



/-- `PeerMeta` from `src/network_handler.rs`. -/
structure PeerMeta where
  public_key : List Nat
  last_valid : Bool
  last_timestamp : Nat
  handle : Option (List Char)
deriving DecidableEq, Repr

/-- The signature-status marker attached to a displayed message:
`signedOk` for the verified mark, `unsigned` for the dot, `invalid` for the
cross. -/
inductive SignedState where
  | signedOk : SignedState
  | unsigned : SignedState
  | invalid : SignedState
deriving DecidableEq, Repr

/-- Calls into the crypto collaborator made while processing one frame,
in execution order. -/
inductive CryptoOp where
  | decryptDm : List Nat → CryptoOp
  | verifySig : List Nat → List Nat → List Nat → CryptoOp
deriving DecidableEq, Repr

/-- Events the handler emits to the controller while processing one frame,
with the data the corresponding format strings carry. -/
inductive Event where
  | disconnectNotice : Nat → Nat → Event
  | badHelloSig : Nat → Event
  | helloNoSig : Nat → Event
  | badHelloHandle : Nat → List Char → Event
  | helloReceived : Nat → List Nat → Event
  | helloNoKey : Nat → Event
  | shown : List Char → SignedState → Option Nat → Event
  | relayError : Nat → Event
  | handleViolation : Nat → Nat → Event
deriving DecidableEq, Repr

/-- Everything one frame's processing produces: the updated `peer_meta`
vector, the emitted events, the socket writes attempted (target index and
frame bytes, in order), the indices pushed onto `remove_indices`, and the
crypto calls made, in order. -/
structure FrameEffects where
  meta : List (Option PeerMeta)
  events : List Event
  writes : List (Nat × List Nat)
  removeAdds : List Nat
  calls : List CryptoOp
deriving DecidableEq, Repr

/-- The placeholder text shown when a DM payload fails to decrypt. -/
def dmErrorText : List Char := "<DM復号エラー>".toList

/-- The canonical bytes the handler verifies a frame signature against:
`signing_bytes` of the frame with the envelope fields cleared
(`src/network_handler.rs` builds this `minimal` message before calling
`verify_ed25519`; `signing_bytes` reads neither `attenuation` nor the
envelope fields, so the attenuation value of the minimal message is
irrelevant and is taken as 0 here). -/
def sigData (m : Message) : List Nat :=
  signing_bytes (⟨m.version, m.kind, 0, m.payload, m.timestamp,
    none, none⟩ : Message)

/-- Rust `str::starts_with('@')` on a char list. -/
def startsWithAt : List Char → Bool
  | c :: _ => c = '@'
  | [] => false

/-- Rust `str::trim` on a char list (whitespace stripped from both ends). -/
def rustTrim (l : List Char) : List Char :=
  ((l.dropWhile Char.isWhitespace).reverse.dropWhile Char.isWhitespace).reverse

/-- The displayed text of a frame (`txt` in the source): DM payloads are
decrypted (with a placeholder on failure), everything else is read as UTF-8
text.  The collaborator functions `decryptDm` (returning `none` on AEAD
failure) and `utf8Lossy` stand for `crypto::decrypt_dm_payload` and
`String::from_utf8_lossy`. -/
def frameText (decryptDm : List Nat → Option (List Nat))
    (utf8Lossy : List Nat → List Char) (msg : Message) : List Char :=
  if msg.kind = 2 then
    match decryptDm msg.payload with
    | some p => utf8Lossy p
    | none => dmErrorText
  else utf8Lossy msg.payload



/-- Result of the per-frame signature block (`src/network_handler.rs`,
the `if let (Some(sig), Some(pk))` block): the display marker, the updated
`peer_meta`, and the verify call made, if any. -/
structure VerifyOut where
  st : SignedState
  meta : List (Option PeerMeta)
  calls : List CryptoOp
deriving DecidableEq, Repr

/-- The signature block run on every received frame: when both signature and
public key are present, verify over the canonical bytes and overwrite
`peer_meta[src]` with the frame's key, the verdict, and the frame's
timestamp, keeping only a previously stored handle.  Without both fields no
verification happens and the marker shows whether a signature was present. -/
def verifyPhase (verify : List Nat → List Nat → List Nat → Bool)
    (meta0 : List (Option PeerMeta)) (src : Nat) (msg : Message) :
    VerifyOut :=
  match msg.signature, msg.public_key with
  | some sig, some pk =>
      let data := sigData msg
      let ok := verify data sig pk
      let st := if ok then SignedState.signedOk else SignedState.invalid
      let meta1 :=
        if src < meta0.length then
          meta0.set src (some ⟨pk, ok, msg.timestamp,
            (meta0.getD src none).bind (fun pm => pm.handle)⟩)
        else meta0
      ⟨st, meta1, [CryptoOp.verifySig data sig pk]⟩
  | _, _ =>
      ⟨if msg.signature.isSome then SignedState.signedOk
        else SignedState.unsigned, meta0, []⟩

/-- Result of the kind dispatch; `skipped` records the `continue`
statements of the HELLO signature-failure branches, which jump past the
handle-length check. -/
structure DispatchOut where
  meta : List (Option PeerMeta)
  events : List Event
  writes : List (Nat × List Nat)
  removeAdds : List Nat
  calls : List CryptoOp
  skipped : Bool
deriving DecidableEq, Repr

/-- The kind dispatch of `src/network_handler.rs` (DISCONNECT, HELLO, DM,
and the final CHAT arm with its relay loop), run after the signature
block. -/
def dispatch (verify : List Nat → List Nat → List Nat → Bool)
    (utf8Lossy : List Nat → List Char) (writeOk : Nat → Bool)
    (now clientsLen : Nat) (meta1 : List (Option PeerMeta)) (src : Nat)
    (msg : Message) (txt : List Char) (st : SignedState) : DispatchOut :=
  if msg.kind = 4 then
    ⟨meta1, [Event.disconnectNotice src ((disconnect_reason_id msg).getD 0)],
     [], [src], [], false⟩
  else if msg.kind = 3 then
    match msg.public_key with
    | some pk =>
        let data := sigData msg
        match msg.signature with
        | some sig =>
            if verify data sig pk = false then
              ⟨meta1, [Event.badHelloSig src],
               [(src, encode (Message.disconnect now 3))], [src],
               [CryptoOp.verifySig data sig pk], true⟩
            else
              let peerHandle := utf8Lossy msg.payload
              let inner :
                  List (Option PeerMeta) × List Event ×
                    List (Nat × List Nat) × List Nat :=
                if src < meta1.length then
                  if ¬(startsWithAt peerHandle = true ∧
                      peerHandle.length < 80) then
                    (meta1, [Event.badHelloHandle src peerHandle],
                     [(src, encode (Message.disconnect now 2))], [src])
                  else
                    (meta1.set src
                       (some ⟨pk, true, msg.timestamp, some peerHandle⟩),
                     [], [], [])
                else (meta1, [], [], [])
              ⟨inner.1, inner.2.1 ++ [Event.helloReceived src pk],
               inner.2.2.1, inner.2.2.2,
               [CryptoOp.verifySig data sig pk], false⟩
        | none =>
            ⟨meta1, [Event.helloNoSig src],
             [(src, encode (Message.disconnect now 3))], [src], [], true⟩
    | none => ⟨meta1, [Event.helloNoKey src], [], [], [], false⟩
  else if msg.kind = 2 then
    ⟨meta1, [Event.shown txt st none], [], [], [], false⟩
  else
    let anonTag : Option Nat :=
      match meta1.getD src none with
      | some pm =>
          if pm.handle.isSome then none
          else if txt.contains ':' then none else some src
      | none => if txt.contains ':' then none else some src
    let relayTargets := (List.range clientsLen).filter (fun i => i != src)
    let relayFails := relayTargets.filter (fun i => !(writeOk i))
    ⟨meta1, Event.shown txt st anonTag :: relayFails.map Event.relayError,
     relayTargets.map (fun i => (i, encode msg)), relayFails, [], false⟩

/-- The trailing handle-length check of `src/network_handler.rs`: if the
displayed text has a colon and the trimmed part before the first colon
starts with an at-sign and has at least 80 codepoints, send
`DISCONNECT(reason=1)` to the source (when in range), emit the violation
event with the peer id and the handle length, and mark the source for
removal. -/
def handleCheck (now clientsLen src : Nat) (txt : List Char) :
    List Event × List (Nat × List Nat) × List Nat :=
  if txt.contains ':' then
    let name := rustTrim (txt.takeWhile (fun c => c != ':'))
    if startsWithAt name = true ∧ 80 ≤ name.length then
      ([Event.handleViolation src name.length],
       (if src < clientsLen
        then [(src, encode (Message.disconnect now 1))] else []),
       [src])
    else ([], [], [])
  else ([], [], [])

/-- Processing of one received frame `(src, msg)` by the network loop
(`src/network_handler.rs`, the body of the per-frame loop): display text,
signature block, kind dispatch, then — unless a HELLO signature failure
`continue`d — the handle-length check. -/
def handleFrame (verify : List Nat → List Nat → List Nat → Bool)
    (decryptDm : List Nat → Option (List Nat))
    (utf8Lossy : List Nat → List Char)
    (writeOk : Nat → Bool) (now clientsLen : Nat)
    (meta0 : List (Option PeerMeta)) (src : Nat) (msg : Message) :
    FrameEffects :=
  let txt := frameText decryptDm utf8Lossy msg
  let dmCalls : List CryptoOp :=
    if msg.kind = 2 then [CryptoOp.decryptDm msg.payload] else []
  let vp := verifyPhase verify meta0 src msg
  let dp := dispatch verify utf8Lossy writeOk now clientsLen vp.meta src msg
    txt vp.st
  let hc := if dp.skipped then ([], [], [])
            else handleCheck now clientsLen src txt
  { meta := dp.meta,
    events := dp.events ++ hc.1,
    writes := dp.writes ++ hc.2.1,
    removeAdds := dp.removeAdds ++ hc.2.2,
    calls := dmCalls ++ vp.calls ++ dp.calls }

/-- The three parallel per-peer vectors of the network loop.  Sockets carry
no data the claims need, so a client is modelled as `Unit`. -/
structure NetState where
  clients : List Unit
  decoders : List Decoder
  peer_meta : List (Option PeerMeta)

/-- Peer creation on `connect` or `accept`: push onto all three vectors. -/
def pushPeer (st : NetState) : NetState :=
  ⟨st.clients ++ [()], st.decoders ++ [Decoder.new], st.peer_meta ++ [none]⟩

/-- The `Disconnect(id)` command: remove the entry from all three vectors
when the id is in range. -/
def disconnectCommand (st : NetState) (id : Nat) : NetState :=
  if id < st.clients.length then
    ⟨st.clients.eraseIdx id, st.decoders.eraseIdx id,
     st.peer_meta.eraseIdx id⟩
  else st

/-- `for i in idxs.rev() { v.remove(i) }`: remove at the listed indices,
last index first. -/
def removeDesc (idxs : List Nat) (l : List α) : List α :=
  idxs.foldr (fun i acc => acc.eraseIdx i) l

/-- Insertion sort on naturals (`sort_unstable` on a `Vec<usize>`). -/
def insertSorted (x : Nat) : List Nat → List Nat
  | [] => [x]
  | y :: t => if x ≤ y then x :: y :: t else y :: insertSorted x t

/-- Full sort (`sort_unstable`). -/
def sortNat : List Nat → List Nat
  | [] => []
  | x :: t => insertSorted x (sortNat t)

/-- `Vec::dedup`: collapse consecutive equal entries. -/
def dedupAdj : List Nat → List Nat
  | [] => []
  | [x] => [x]
  | x :: y :: t =>
      if x = y then dedupAdj (y :: t) else x :: dedupAdj (y :: t)

/-- The end-of-iteration removal pass: sort, dedup, then remove in
descending index order from all three vectors. -/
def removalPass (st : NetState) (removeIndices : List Nat) : NetState :=
  let idxs := dedupAdj (sortNat removeIndices)
  ⟨removeDesc idxs st.clients, removeDesc idxs st.decoders,
   removeDesc idxs st.peer_meta⟩

/-- The `Chat(text)` broadcast command (`src/network_handler.rs`): write the
encoded frame to every client, collect the indices whose write failed, and
remove those indices — from `clients` and `decoders` only — in descending
order.  Returns the new state and the attempted writes. -/
def chatCommand (writeOk : Nat → Bool) (st : NetState) (frame : List Nat) :
    NetState × List (Nat × List Nat) :=
  let writes := (List.range st.clients.length).map (fun i => (i, frame))
  let removeList :=
    (List.range st.clients.length).filter (fun i => !(writeOk i))
  (⟨removeDesc removeList st.clients, removeDesc removeList st.decoders,
    st.peer_meta⟩, writes)

/-- A DM whose signature will not verify (fields: version, kind,
attenuation, payload, timestamp, public_key, signature). -/
def dmBad : Message := ⟨1, 2, 0, [3, 4], 5, some [6], some [7]⟩

/-- A CHAT frame signed with key `[2]` (fields: version, kind, attenuation,
payload, timestamp, public_key, signature). -/
def chatOtherKey : Message := ⟨1, 1, 0, [3], 5, some [2], some [9]⟩

/-- A HELLO frame with a signature but no public key (fields: version,
kind, attenuation, payload, timestamp, public_key, signature). -/
def helloNoKeyMsg : Message := ⟨1, 3, 0, [64], 5, none, some [7]⟩

/-- The displayed text of the C8 counterexample: an at-sign, eighty x's,
then a colon. -/
def longAtText : List Char := '@' :: (List.replicate 80 'x' ++ [':'])

/-- A HELLO carrying a public key but no signature (fields: version, kind,
attenuation, payload, timestamp, public_key, signature). -/
def helloLongNoSig : Message := ⟨1, 3, 0, [9], 5, some [1], none⟩

/-- A second HELLO carrying the different key `[2]` (fields: version, kind,
attenuation, payload, timestamp, public_key, signature). -/
def helloNewKey : Message := ⟨1, 3, 0, [1], 6, some [2], some [9]⟩

/-- A HELLO with key `[5]` and no signature, and one with key `[5]` and
signature `[6]` (fields: version, kind, attenuation, payload, timestamp,
public_key, signature). -/
def helloNoSigPk : Message := ⟨1, 3, 0, [2], 7, some [5], none⟩

/-- A HELLO with key `[5]` and signature `[6]`. -/
def helloBadSig : Message := ⟨1, 3, 0, [2], 7, some [5], some [6]⟩

/-- A CHAT frame whose displayed text will be `longAtText` (fields:
version, kind, attenuation, payload, timestamp, public_key, signature). -/
def chatLong : Message := ⟨1, 1, 0, [2], 5, none, none⟩

end Handler

namespace Protocol


/-- A buffer shorter than the 23-byte header is left untouched and produces
no messages and no error. -/
theorem drainLoop_short (mp : Nat) (p : List Nat) (h : p.length < 23) :
    drainLoop mp p = (.ok [], p) := by
  rcases p with _ | ⟨b0, _ | ⟨b1, _ | ⟨b2, _ | ⟨b3, _ | ⟨b4, _ | ⟨b5, _ |
    ⟨b6, _ | ⟨b7, _ | ⟨b8, _ | ⟨b9, _ | ⟨b10, _ | ⟨b11, _ | ⟨b12, _ |
    ⟨b13, _ | ⟨b14, _ | ⟨b15, _ | ⟨b16, _ | ⟨b17, _ | ⟨b18, _ | ⟨b19, _ |
    ⟨b20, _ | ⟨b21, _ | ⟨b22, tail⟩⟩⟩⟩⟩⟩⟩⟩⟩⟩⟩⟩⟩⟩⟩⟩⟩⟩⟩⟩⟩⟩⟩
  all_goals first
    | (exfalso; simp at h; omega)
    | (rw [drainLoop]; all_goals simp_all)


theorem fromBe32_be32 (n : Nat) (h : n < 4294967296) :
    fromBe32 (n / 16777216 % 256) (n / 65536 % 256) (n / 256 % 256) (n % 256) = n := by
  simp [fromBe32]
  omega

theorem fromBe64_be64 (n : Nat) (h : n < 18446744073709551616) :
    fromBe64 (n / 72057594037927936 % 256) (n / 281474976710656 % 256)
      (n / 1099511627776 % 256) (n / 4294967296 % 256)
      (n / 16777216 % 256) (n / 65536 % 256) (n / 256 % 256) (n % 256) = n := by
  simp [fromBe64]
  omega


theorem drainLoop_frame (mp v k a ts : Nat) (pkB sigB payB rest : List Nat)
    (hv : v = 1) (hk : k = 1 ∨ k = 2 ∨ k = 3 ∨ k = 4) (ha : a ≤ 50)
    (hL : payB.length ≤ mp) (hL32 : payB.length < 4294967296)
    (hP32 : pkB.length < 4294967296) (hS32 : sigB.length < 4294967296)
    (hts : ts < 18446744073709551616) :
    drainLoop mp (mkFrame v k a ts pkB sigB payB ++ rest) =
      (match drainLoop mp rest with
       | (.ok msgs, b) => (.ok (frameMsg v k a ts pkB sigB payB :: msgs), b)
       | (.error e, b) => (.error e, b)) := by
  subst hv
  have hLbe := fromBe32_be32 payB.length hL32
  have hPbe := fromBe32_be32 pkB.length hP32
  have hSbe := fromBe32_be32 sigB.length hS32
  have htsbe := fromBe64_be64 ts hts
  simp only [mkFrame, be32, be64, List.cons_append, List.append_assoc,
    List.nil_append]
  rw [drainLoop]
  simp only [hLbe, hPbe, hSbe, htsbe]
  rw [if_neg (by omega : ¬(1:Nat) ≠ 1)]
  rw [if_neg (not_not_intro hk)]
  rw [if_neg (by omega : ¬ 50 < a)]
  rw [if_neg (by omega : ¬ mp < payB.length)]
  rw [if_neg (by simp only [List.length_append, not_lt]; omega :
    ¬ (pkB ++ (sigB ++ (payB ++ rest))).length <
      pkB.length + sigB.length + payB.length)]
  have h1 : (pkB ++ (sigB ++ (payB ++ rest))).take pkB.length = pkB :=
    List.take_left _ _
  have h2 : (pkB ++ (sigB ++ (payB ++ rest))).drop pkB.length =
      sigB ++ (payB ++ rest) := List.drop_left _ _
  have h3 : (pkB ++ (sigB ++ (payB ++ rest))).drop
      (pkB.length + sigB.length) = payB ++ rest := by
    rw [← List.drop_drop, h2, List.drop_left]
  have h4 : (pkB ++ (sigB ++ (payB ++ rest))).drop
      (pkB.length + sigB.length + payB.length) = rest := by
    rw [← List.drop_drop, h3, List.drop_left]
  rw [h1, h2, h3, h4]
  simp only [List.take_left, frameMsg]


/-- `encode` produces exactly the raw frame of its parts. -/
theorem encode_eq_mkFrame (m : Message) :
    encode m = mkFrame m.version m.kind m.attenuation m.timestamp
      (optBytes m.public_key) (optBytes m.signature) m.payload := by
  simp [encode, mkFrame, optLen]

/-- Re-assembling the decoded fields of a well-formed message gives it back. -/
theorem frameMsg_encode (m : Message) (hpk : optWf m.public_key)
    (hsig : optWf m.signature) :
    frameMsg m.version m.kind m.attenuation m.timestamp
      (optBytes m.public_key) (optBytes m.signature) m.payload = m := by
  obtain ⟨v, k, a, pay, ts, opk, osig⟩ := m
  cases opk with
  | none => cases osig with
    | none => simp [frameMsg, optBytes]
    | some s => simp [frameMsg, optBytes, List.length_pos.mpr hsig.1]
  | some p =>
      cases osig with
      | none => simp [frameMsg, optBytes, List.length_pos.mpr hpk.1]
      | some s =>
          simp [frameMsg, optBytes, List.length_pos.mpr hpk.1,
            List.length_pos.mpr hsig.1]

/-- Draining a buffer that starts with the encoding of a well-formed message
decodes that message and continues on the remainder. -/
theorem drainLoop_encode_cons (mp : Nat) (m : Message) (rest : List Nat)
    (hm : WfMsg mp m) :
    drainLoop mp (encode m ++ rest) =
      (match drainLoop mp rest with
       | (.ok msgs, b) => (.ok (m :: msgs), b)
       | (.error e, b) => (.error e, b)) := by
  obtain ⟨h1, h2, h3, h4, h5, h6, h7, h8⟩ := hm
  have hP32 : (optBytes m.public_key).length < 4294967296 := by
    cases h : m.public_key with
    | none => simp [optBytes]
    | some l => rw [h] at h7; simpa [optBytes] using h7.2
  have hS32 : (optBytes m.signature).length < 4294967296 := by
    cases h : m.signature with
    | none => simp [optBytes]
    | some l => rw [h] at h8; simpa [optBytes] using h8.2
  rw [encode_eq_mkFrame,
    drainLoop_frame mp m.version m.kind m.attenuation m.timestamp
      (optBytes m.public_key) (optBytes m.signature) m.payload rest
      h1 h2 h3 h4 h5 hP32 hS32 h6,
    frameMsg_encode m h7 h8]

/-- Draining a buffer that starts with the encodings of a list of well-formed
messages decodes them all in order and continues on the remainder;
if the remainder produces an error, the decoded messages are discarded. -/
theorem drainLoop_msgs (mp : Nat) (msgs : List Message) (rest : List Nat)
    (h : ∀ m ∈ msgs, WfMsg mp m) :
    drainLoop mp ((msgs.map encode).flatten ++ rest) =
      (match drainLoop mp rest with
       | (.ok out, b) => (.ok (msgs ++ out), b)
       | (.error e, b) => (.error e, b)) := by
  induction msgs with
  | nil =>
      simp only [List.map_nil, List.flatten_nil, List.nil_append]
      rcases hr : drainLoop mp rest with ⟨r, b⟩
      cases r <;> simp [hr]
  | cons m ms ih =>
      have hm : WfMsg mp m := h m (by simp)
      have hms : ∀ x ∈ ms, WfMsg mp x := fun x hx => h x (by simp [hx])
      simp only [List.map_cons, List.flatten_cons, List.append_assoc]
      rw [drainLoop_encode_cons mp m _ hm, ih hms]
      rcases hr : drainLoop mp rest with ⟨r, b⟩
      cases r <;> simp [hr]


/-- Draining a proper prefix of a single well-formed frame produces no
messages, no error, and leaves the buffer untouched. -/
theorem drainLoop_frame_prefix (mp v k a ts : Nat)
    (pkB sigB payB p q : List Nat)
    (hv : v = 1) (hk : k = 1 ∨ k = 2 ∨ k = 3 ∨ k = 4) (ha : a ≤ 50)
    (hL : payB.length ≤ mp) (hL32 : payB.length < 4294967296)
    (hP32 : pkB.length < 4294967296) (hS32 : sigB.length < 4294967296)
    (happ : mkFrame v k a ts pkB sigB payB = p ++ q) (hq : q ≠ []) :
    drainLoop mp p = (.ok [], p) := by
  subst hv
  by_cases hshort : p.length < 23
  · exact drainLoop_short mp p hshort
  · rcases p with _ | ⟨c0, _ | ⟨c1, _ | ⟨c2, _ | ⟨c3, _ | ⟨c4, _ | ⟨c5, _ |
      ⟨c6, _ | ⟨c7, _ | ⟨c8, _ | ⟨c9, _ | ⟨c10, _ | ⟨c11, _ | ⟨c12, _ |
      ⟨c13, _ | ⟨c14, _ | ⟨c15, _ | ⟨c16, _ | ⟨c17, _ | ⟨c18, _ | ⟨c19, _ |
      ⟨c20, _ | ⟨c21, _ | ⟨c22, tail⟩⟩⟩⟩⟩⟩⟩⟩⟩⟩⟩⟩⟩⟩⟩⟩⟩⟩⟩⟩⟩⟩⟩
    any_goals (exfalso; simp at hshort; done)
    simp only [mkFrame, be32, be64, List.cons_append, List.append_assoc,
      List.nil_append, List.cons.injEq] at happ
    obtain ⟨e0, e1, e2, e3, e4, e5, e6, e7, e8, e9, e10, e11, e12, e13,
      e14, e15, e16, e17, e18, e19, e20, e21, e22, etail⟩ := happ
    subst_vars
    have hlen : tail.length < pkB.length + sigB.length + payB.length := by
      have hlq := congrArg List.length etail
      simp only [List.length_append] at hlq
      have : 0 < q.length := List.length_pos.mpr hq
      omega
    rw [drainLoop]
    rw [if_neg (by omega : ¬(1:Nat) ≠ 1)]
    rw [if_neg (not_not_intro hk)]
    rw [if_neg (not_lt.mpr ha)]
    rw [fromBe32_be32 payB.length hL32]
    rw [if_neg (not_lt.mpr hL)]
    rw [fromBe32_be32 pkB.length hP32, fromBe32_be32 sigB.length hS32]
    rw [if_pos hlen]


/-- Total length of a raw frame: header plus the three variable parts. -/
theorem mkFrame_length (v k a ts : Nat) (pkB sigB payB : List Nat) :
    (mkFrame v k a ts pkB sigB payB).length =
      23 + pkB.length + sigB.length + payB.length := by
  simp [mkFrame, be32, be64]
  omega

/-- Invariant for chunked feeding of one well-formed frame: starting from a
decoder holding the already-fed prefix `a` (empty once the frame completed),
the remaining chunks produce exactly the predicted batches and leave an
empty buffer. -/
theorem drainOutputs_chunks (mp : Nat) (m : Message) (hm : WfMsg mp m) :
    ∀ (cs : List (List Nat)) (a : List Nat),
      a ++ cs.flatten = encode m →
      drainOutputs ⟨if a.length < (encode m).length then a else [], mp⟩ cs =
        (c1Expected (encode m).length m a.length cs, ⟨[], mp⟩) := by
  obtain ⟨h1, h2, h3, h4, h5, h6, h7, h8⟩ := hm
  have hP32 : (optBytes m.public_key).length < 4294967296 := by
    cases h : m.public_key with
    | none => simp [optBytes]
    | some l => rw [h] at h7; simpa [optBytes] using h7.2
  have hS32 : (optBytes m.signature).length < 4294967296 := by
    cases h : m.signature with
    | none => simp [optBytes]
    | some l => rw [h] at h8; simpa [optBytes] using h8.2
  intro cs
  induction cs with
  | nil =>
      intro a ha
      simp only [List.flatten_nil, List.append_nil] at ha
      subst ha
      simp [drainOutputs, c1Expected]
  | cons c cs ih =>
      intro a ha
      simp only [List.flatten_cons] at ha
      by_cases hlt : a.length < (encode m).length
      · rw [if_pos hlt]
        by_cases hlt2 : (a ++ c).length < (encode m).length
        · -- the frame is still incomplete after this chunk
          have hq : cs.flatten ≠ [] := by
            intro h0
            rw [h0, List.append_nil] at ha
            have := congrArg List.length ha
            simp only [List.length_append] at this hlt2
            omega
          have hpre : mkFrame m.version m.kind m.attenuation m.timestamp
              (optBytes m.public_key) (optBytes m.signature) m.payload =
              (a ++ c) ++ cs.flatten := by
            rw [← encode_eq_mkFrame, ← ha, List.append_assoc]
          have hdrain := drainLoop_frame_prefix mp m.version m.kind
            m.attenuation m.timestamp (optBytes m.public_key)
            (optBytes m.signature) m.payload (a ++ c) cs.flatten
            h1 h2 h3 h4 h5 hP32 hS32 hpre hq
          have ihx := ih (a ++ c) (by rw [List.append_assoc]; exact ha)
          rw [if_pos hlt2] at ihx
          simp only [List.length_append] at hlt2 ihx
          simp [drainOutputs, Decoder.feed, Decoder.drain, hdrain, ihx,
            c1Expected, List.length_append, hlt2]
        · -- this chunk completes the frame
          have hflat : cs.flatten = [] := by
            rw [← List.append_assoc] at ha
            have := congrArg List.length ha
            simp only [List.length_append, not_lt] at this hlt2
            have h0 : cs.flatten.length = 0 := by omega
            exact List.length_eq_zero.mp h0
          have hfull : a ++ c = encode m := by
            have ha2 := ha
            rw [hflat, List.append_nil] at ha2
            exact ha2
          have hdrain : drainLoop mp (a ++ c) = (.ok [m], []) := by
            rw [hfull, ← List.append_nil (encode m),
              drainLoop_encode_cons mp m [] ⟨h1, h2, h3, h4, h5, h6, h7, h8⟩,
              drainLoop_short mp [] (by simp)]
          have ihx := ih (a ++ c) (by rw [hflat, List.append_nil]; exact hfull)
          rw [if_neg (by rw [hfull]; omega)] at ihx
          simp only [List.length_append, not_lt] at hlt2 ihx
          simp [drainOutputs, Decoder.feed, Decoder.drain, hdrain, ihx,
            c1Expected, List.length_append, hlt, not_lt.mpr hlt2]
      · -- the frame was already complete before this chunk
        rw [if_neg hlt]
        have hcnil : c = [] ∧ cs.flatten = [] := by
          have hl := congrArg List.length ha
          simp only [List.length_append, not_lt] at hl hlt
          constructor
          · exact List.length_eq_zero.mp (by omega)
          · exact List.length_eq_zero.mp (by omega)
        obtain ⟨hc1, hc2⟩ := hcnil
        subst hc1
        have ha' : a = encode m := by simpa [hc2] using ha
        have hdrain : drainLoop mp ([] : List Nat) = (.ok [], []) :=
          drainLoop_short mp _ (by simp)
        have ihx := ih a (by simpa [hc2] using ha)
        rw [if_neg hlt] at ihx
        simp only [not_lt] at hlt
        simp [drainOutputs, Decoder.feed, Decoder.drain, hdrain, ihx,
          c1Expected, not_lt.mpr hlt]


/-- First decode check: a non-1 version byte at the head of a full header is
rejected with `UnsupportedVersion(version)`, buffer untouched. -/
theorem drainLoop_badVersion (mp : Nat) (buf : List Nat)
    (h23 : 23 ≤ buf.length) (hv : buf.getD 0 0 ≠ 1) :
    drainLoop mp buf = (.error (.UnsupportedVersion (buf.getD 0 0)), buf) := by
  rcases buf with _ | ⟨b0, _ | ⟨b1, _ | ⟨b2, _ | ⟨b3, _ | ⟨b4, _ | ⟨b5, _ |
    ⟨b6, _ | ⟨b7, _ | ⟨b8, _ | ⟨b9, _ | ⟨b10, _ | ⟨b11, _ | ⟨b12, _ |
    ⟨b13, _ | ⟨b14, _ | ⟨b15, _ | ⟨b16, _ | ⟨b17, _ | ⟨b18, _ | ⟨b19, _ |
    ⟨b20, _ | ⟨b21, _ | ⟨b22, tail⟩⟩⟩⟩⟩⟩⟩⟩⟩⟩⟩⟩⟩⟩⟩⟩⟩⟩⟩⟩⟩⟩⟩
  all_goals (try (exfalso; simp at h23; done))
  simp only [List.getD_cons_zero] at hv ⊢
  rw [drainLoop, if_pos hv]


/-- Second decode check: a kind byte outside 1..4 (with version 1) is
rejected with `UnsupportedVersion(kind)`, buffer untouched. -/
theorem drainLoop_badKind (mp : Nat) (buf : List Nat)
    (h23 : 23 ≤ buf.length) (hv : buf.getD 0 0 = 1)
    (hk : ¬(buf.getD 1 0 = 1 ∨ buf.getD 1 0 = 2 ∨ buf.getD 1 0 = 3 ∨
      buf.getD 1 0 = 4)) :
    drainLoop mp buf = (.error (.UnsupportedVersion (buf.getD 1 0)), buf) := by
  rcases buf with _ | ⟨b0, _ | ⟨b1, _ | ⟨b2, _ | ⟨b3, _ | ⟨b4, _ | ⟨b5, _ |
    ⟨b6, _ | ⟨b7, _ | ⟨b8, _ | ⟨b9, _ | ⟨b10, _ | ⟨b11, _ | ⟨b12, _ |
    ⟨b13, _ | ⟨b14, _ | ⟨b15, _ | ⟨b16, _ | ⟨b17, _ | ⟨b18, _ | ⟨b19, _ |
    ⟨b20, _ | ⟨b21, _ | ⟨b22, tail⟩⟩⟩⟩⟩⟩⟩⟩⟩⟩⟩⟩⟩⟩⟩⟩⟩⟩⟩⟩⟩⟩⟩
  all_goals (try (exfalso; simp at h23; done))
  simp only [List.getD_cons_zero, List.getD_cons_succ] at hv hk ⊢
  subst hv
  rw [drainLoop, if_neg (by omega : ¬(1:Nat) ≠ 1), if_pos hk]

/-- Third decode check: an attenuation byte above 50 (with valid version and
kind) is rejected with `BadAttenuation(attenuation)`, buffer untouched. -/
theorem drainLoop_badAttenuation (mp : Nat) (buf : List Nat)
    (h23 : 23 ≤ buf.length) (hv : buf.getD 0 0 = 1)
    (hk : buf.getD 1 0 = 1 ∨ buf.getD 1 0 = 2 ∨ buf.getD 1 0 = 3 ∨
      buf.getD 1 0 = 4)
    (ha : 50 < buf.getD 2 0) :
    drainLoop mp buf = (.error (.BadAttenuation (buf.getD 2 0)), buf) := by
  rcases buf with _ | ⟨b0, _ | ⟨b1, _ | ⟨b2, _ | ⟨b3, _ | ⟨b4, _ | ⟨b5, _ |
    ⟨b6, _ | ⟨b7, _ | ⟨b8, _ | ⟨b9, _ | ⟨b10, _ | ⟨b11, _ | ⟨b12, _ |
    ⟨b13, _ | ⟨b14, _ | ⟨b15, _ | ⟨b16, _ | ⟨b17, _ | ⟨b18, _ | ⟨b19, _ |
    ⟨b20, _ | ⟨b21, _ | ⟨b22, tail⟩⟩⟩⟩⟩⟩⟩⟩⟩⟩⟩⟩⟩⟩⟩⟩⟩⟩⟩⟩⟩⟩⟩
  all_goals (try (exfalso; simp at h23; done))
  simp only [List.getD_cons_zero, List.getD_cons_succ] at hv hk ha ⊢
  subst hv
  rw [drainLoop, if_neg (by omega : ¬(1:Nat) ≠ 1), if_neg (not_not_intro hk),
    if_pos ha]

/-- Fourth decode check: a payload length field above the decoder's cap
(with valid version, kind, attenuation) is rejected with
`LengthTooLarge(payload_len)`, buffer untouched. -/
theorem drainLoop_lengthTooLarge (mp : Nat) (buf : List Nat)
    (h23 : 23 ≤ buf.length) (hv : buf.getD 0 0 = 1)
    (hk : buf.getD 1 0 = 1 ∨ buf.getD 1 0 = 2 ∨ buf.getD 1 0 = 3 ∨
      buf.getD 1 0 = 4)
    (ha : buf.getD 2 0 ≤ 50)
    (hL : mp < fromBe32 (buf.getD 3 0) (buf.getD 4 0) (buf.getD 5 0)
      (buf.getD 6 0)) :
    drainLoop mp buf = (.error (.LengthTooLarge
      (fromBe32 (buf.getD 3 0) (buf.getD 4 0) (buf.getD 5 0)
        (buf.getD 6 0))), buf) := by
  rcases buf with _ | ⟨b0, _ | ⟨b1, _ | ⟨b2, _ | ⟨b3, _ | ⟨b4, _ | ⟨b5, _ |
    ⟨b6, _ | ⟨b7, _ | ⟨b8, _ | ⟨b9, _ | ⟨b10, _ | ⟨b11, _ | ⟨b12, _ |
    ⟨b13, _ | ⟨b14, _ | ⟨b15, _ | ⟨b16, _ | ⟨b17, _ | ⟨b18, _ | ⟨b19, _ |
    ⟨b20, _ | ⟨b21, _ | ⟨b22, tail⟩⟩⟩⟩⟩⟩⟩⟩⟩⟩⟩⟩⟩⟩⟩⟩⟩⟩⟩⟩⟩⟩⟩
  all_goals (try (exfalso; simp at h23; done))
  simp only [List.getD_cons_zero, List.getD_cons_succ] at hv hk ha hL ⊢
  subst hv
  rw [drainLoop, if_neg (by omega : ¬(1:Nat) ≠ 1), if_neg (not_not_intro hk),
    if_neg (not_lt.mpr ha), if_pos hL]

/-- A single complete raw frame whose header passes the four checks is
decoded in full, whatever its pk/sig length fields, leaving an empty
buffer. -/
theorem drainLoop_single_frame (mp v k a ts : Nat) (pkB sigB payB : List Nat)
    (hv : v = 1) (hk : k = 1 ∨ k = 2 ∨ k = 3 ∨ k = 4) (ha : a ≤ 50)
    (hL : payB.length ≤ mp) (hL32 : payB.length < 4294967296)
    (hP32 : pkB.length < 4294967296) (hS32 : sigB.length < 4294967296)
    (hts : ts < 18446744073709551616) :
    drainLoop mp (mkFrame v k a ts pkB sigB payB) =
      (.ok [frameMsg v k a ts pkB sigB payB], []) := by
  have h := drainLoop_frame mp v k a ts pkB sigB payB []
    hv hk ha hL hL32 hP32 hS32 hts
  rw [List.append_nil] at h
  rw [h, drainLoop_short mp [] (by simp)]

/-- C1, counterexample: the claim's validity conditions (version 1, kind in
1..4, attenuation at most 50, payload within the cap) admit `cexMsg`, which
has `public_key = some []`; its round trip loses the field — the encoder
writes `pk_len = 0`, so the decoder returns `public_key = none`.  Feeding
`encode cexMsg` as one chunk and draining yields `[cexMsgDecoded]`, not
`[cexMsg]`. -/
theorem C1_roundtrip_counterexample :
    (Decoder.new.feed (encode cexMsg)).drain.1 =
        Except.ok [cexMsgDecoded] ∧
      (Decoder.new.feed (encode cexMsg)).drain.1 ≠ Except.ok [cexMsg] := by
  have hd : drainLoop 524288 (encode cexMsg) =
      (.ok [frameMsg 1 1 0 0 [] [] []], []) := by
    rw [show encode cexMsg = mkFrame 1 1 0 0 [] [] [] from rfl]
    exact drainLoop_single_frame _ 1 1 0 0 [] [] [] rfl (Or.inl rfl)
      (by omega) (by simp) (by simp) (by simp) (by simp) (by omega)
  constructor
  · simp only [Decoder.new, Decoder.with_max_payload, Decoder.feed,
      Decoder.drain, List.nil_append, hd]
    simp [frameMsg, cexMsgDecoded]
  · simp only [Decoder.new, Decoder.with_max_payload, Decoder.feed,
      Decoder.drain, List.nil_append, hd]
    simp [frameMsg, cexMsg]

/-- C1 (amended): for a message whose fields are in the valid ranges and
whose pk/sig fields are, in addition, absent or non-empty (with lengths and
timestamp within their Rust integer types), feeding `encode m` to a fresh
decoder in any split into consecutive chunks and draining after each chunk
produces no message while bytes are missing, exactly the batch `[m]` on the
chunk bringing the final frame byte, empty batches afterwards, and leaves
the buffer empty. -/
theorem C1_chunked_roundtrip (mp : Nat) (m : Message)
    (chunks : List (List Nat)) (hm : WfMsg mp m)
    (hchunks : chunks.flatten = encode m) :
    drainOutputs (Decoder.with_max_payload mp) chunks =
      (c1Expected (encode m).length m 0 chunks,
       Decoder.with_max_payload mp) := by
  have h := drainOutputs_chunks mp m hm chunks [] (by simpa using hchunks)
  simpa [Decoder.with_max_payload] using h

/-- Witness for C1: `witMsg` fed in the two chunks of `witChunks`. -/
theorem C1_chunked_roundtrip_witness :
    WfMsg 524288 witMsg ∧ witChunks.flatten = encode witMsg ∧
      drainOutputs (Decoder.with_max_payload 524288) witChunks =
        (c1Expected (encode witMsg).length witMsg 0 witChunks,
         Decoder.with_max_payload 524288) :=
  ⟨by decide, by decide,
   C1_chunked_roundtrip 524288 witMsg witChunks (by decide) (by decide)⟩


/-- C5: `Decoder::drain` rejects only what the decode-check list says, in
order, on the frame at the head of the buffer: version, kind, attenuation,
payload length — with the stated errors; the pk/sig length fields are not
validated (any complete frame passing the four checks decodes, whatever
those lengths); and an incomplete buffer yields the messages decoded so far
rather than an error. -/
theorem C5_decode_checks (mp : Nat) :
    (∀ buf : List Nat, 23 ≤ buf.length → buf.getD 0 0 ≠ 1 →
      drainLoop mp buf =
        (.error (.UnsupportedVersion (buf.getD 0 0)), buf)) ∧
    (∀ buf : List Nat, 23 ≤ buf.length → buf.getD 0 0 = 1 →
      ¬(buf.getD 1 0 = 1 ∨ buf.getD 1 0 = 2 ∨ buf.getD 1 0 = 3 ∨
        buf.getD 1 0 = 4) →
      drainLoop mp buf =
        (.error (.UnsupportedVersion (buf.getD 1 0)), buf)) ∧
    (∀ buf : List Nat, 23 ≤ buf.length → buf.getD 0 0 = 1 →
      (buf.getD 1 0 = 1 ∨ buf.getD 1 0 = 2 ∨ buf.getD 1 0 = 3 ∨
        buf.getD 1 0 = 4) →
      50 < buf.getD 2 0 →
      drainLoop mp buf = (.error (.BadAttenuation (buf.getD 2 0)), buf)) ∧
    (∀ buf : List Nat, 23 ≤ buf.length → buf.getD 0 0 = 1 →
      (buf.getD 1 0 = 1 ∨ buf.getD 1 0 = 2 ∨ buf.getD 1 0 = 3 ∨
        buf.getD 1 0 = 4) →
      buf.getD 2 0 ≤ 50 →
      mp < fromBe32 (buf.getD 3 0) (buf.getD 4 0) (buf.getD 5 0)
        (buf.getD 6 0) →
      drainLoop mp buf = (.error (.LengthTooLarge
        (fromBe32 (buf.getD 3 0) (buf.getD 4 0) (buf.getD 5 0)
          (buf.getD 6 0))), buf)) ∧
    (∀ (v k a ts : Nat) (pkB sigB payB : List Nat), v = 1 →
      (k = 1 ∨ k = 2 ∨ k = 3 ∨ k = 4) → a ≤ 50 → payB.length ≤ mp →
      payB.length < 4294967296 → pkB.length < 4294967296 →
      sigB.length < 4294967296 → ts < 18446744073709551616 →
      drainLoop mp (mkFrame v k a ts pkB sigB payB) =
        (.ok [frameMsg v k a ts pkB sigB payB], [])) ∧
    (∀ (msgs : List Message) (m : Message) (p q : List Nat),
      (∀ x ∈ msgs, WfMsg mp x) → WfMsg mp m → encode m = p ++ q → q ≠ [] →
      drainLoop mp ((msgs.map encode).flatten ++ p) = (.ok msgs, p)) := by
  refine ⟨drainLoop_badVersion mp, drainLoop_badKind mp,
    drainLoop_badAttenuation mp, drainLoop_lengthTooLarge mp,
    fun v k a ts pkB sigB payB hv hk ha hL hL32 hP32 hS32 hts =>
      drainLoop_single_frame mp v k a ts pkB sigB payB hv hk ha hL hL32
        hP32 hS32 hts,
    fun msgs m p q hmsgs hm hpq hq => ?_⟩
  obtain ⟨h1, h2, h3, h4, h5, h6, h7, h8⟩ := hm
  have hP32 : (optBytes m.public_key).length < 4294967296 := by
    cases h : m.public_key with
    | none => simp [optBytes]
    | some l => rw [h] at h7; simpa [optBytes] using h7.2
  have hS32 : (optBytes m.signature).length < 4294967296 := by
    cases h : m.signature with
    | none => simp [optBytes]
    | some l => rw [h] at h8; simpa [optBytes] using h8.2
  have hpre := drainLoop_frame_prefix mp m.version m.kind m.attenuation
    m.timestamp (optBytes m.public_key) (optBytes m.signature) m.payload p q
    h1 h2 h3 h4 h5 hP32 hS32 (by rw [← encode_eq_mkFrame]; exact hpq) hq
  rw [drainLoop_msgs mp msgs p hmsgs, hpre]
  simp

/-- Witness for C5: each conjunct instantiated — version 99, kind 9,
attenuation 99, a 2^30 payload length against the default cap, a complete
frame with pk length 3 and sig length 1 (neither 0/32 nor 0/64), and one
decoded message followed by a 5-byte partial frame. -/
theorem C5_decode_checks_witness :
    drainLoop 524288 (99 :: List.replicate 22 0) =
        (.error (.UnsupportedVersion 99), 99 :: List.replicate 22 0) ∧
    drainLoop 524288 (1 :: 9 :: List.replicate 21 0) =
        (.error (.UnsupportedVersion 9), 1 :: 9 :: List.replicate 21 0) ∧
    drainLoop 524288 (1 :: 1 :: 99 :: List.replicate 20 0) =
        (.error (.BadAttenuation 99), 1 :: 1 :: 99 :: List.replicate 20 0) ∧
    drainLoop 524288 (1 :: 1 :: 0 :: 64 :: List.replicate 19 0) =
        (.error (.LengthTooLarge 1073741824),
         1 :: 1 :: 0 :: 64 :: List.replicate 19 0) ∧
    drainLoop 524288 (mkFrame 1 1 0 0 [1, 2, 3] [7] [9]) =
        (.ok [frameMsg 1 1 0 0 [1, 2, 3] [7] [9]], []) ∧
    drainLoop 524288 (([witMsg].map encode).flatten ++
        (encode witMsg).take 5) = (.ok [witMsg], (encode witMsg).take 5) :=
  ⟨(C5_decode_checks 524288).1 _ (by decide) (by decide),
   (C5_decode_checks 524288).2.1 _ (by decide) (by decide) (by decide),
   (C5_decode_checks 524288).2.2.1 _ (by decide) (by decide) (by decide)
     (by decide),
   (C5_decode_checks 524288).2.2.2.1 _ (by decide) (by decide) (by decide)
     (by decide) (by decide),
   (C5_decode_checks 524288).2.2.2.2.1 1 1 0 0 [1, 2, 3] [7] [9] rfl
     (by decide) (by decide) (by decide) (by decide) (by decide) (by decide)
     (by decide),
   (C5_decode_checks 524288).2.2.2.2.2 [witMsg] witMsg
     ((encode witMsg).take 5) ((encode witMsg).drop 5)
     (by decide) (by decide) (by decide) (by decide)⟩

/-- C10: `drain` is not atomic on error — frames already extracted from the
head of the buffer are consumed and their messages are discarded when a
later head frame fails a decode check: the call returns only the error, and
the buffer retains exactly the offending bytes. -/
theorem C10_drain_not_atomic (mp : Nat) (msgs : List Message)
    (bad : List Nat) (e : ProtocolError) (h : ∀ m ∈ msgs, WfMsg mp m)
    (hbad : drainLoop mp bad = (.error e, bad)) :
    drainLoop mp ((msgs.map encode).flatten ++ bad) = (.error e, bad) := by
  rw [drainLoop_msgs mp msgs bad h, hbad]

/-- Witness for C10: one good frame followed by a version-99 header; the
drain returns only `UnsupportedVersion 99`, the good frame's bytes are gone
and the bad header alone remains buffered. -/
theorem C10_drain_not_atomic_witness :
    drainLoop 524288 (([witMsg].map encode).flatten ++
        (99 :: List.replicate 22 0)) =
      (.error (.UnsupportedVersion 99), 99 :: List.replicate 22 0) :=
  C10_drain_not_atomic 524288 [witMsg] (99 :: List.replicate 22 0)
    (.UnsupportedVersion 99) (by decide)
    (drainLoop_badVersion 524288 (99 :: List.replicate 22 0) (by decide)
      (by decide))

end Protocol

namespace Handler

open Protocol



/-- C6: the canonical signing bytes are exactly
version ‖ kind ‖ payload_len(be u32) ‖ timestamp(be u64) ‖ payload; two
messages agreeing on those four fields have identical signing bytes
whatever their attenuation, public key, and signature; and the byte string
the handler verifies a signature against (`sigData`) is likewise unchanged
by those three fields, so no verifier outcome can depend on them. -/
theorem C6_signing_envelope :
    (∀ m : Message, signing_bytes m = m.version :: m.kind ::
      (be32 m.payload.length ++ be64 m.timestamp ++ m.payload)) ∧
    (∀ m1 m2 : Message, m1.version = m2.version → m1.kind = m2.kind →
      m1.payload = m2.payload → m1.timestamp = m2.timestamp →
      signing_bytes m1 = signing_bytes m2) ∧
    (∀ (m : Message) (a : Nat) (pk sg : Option (List Nat)),
      sigData (⟨m.version, m.kind, a, m.payload, m.timestamp, pk, sg⟩ :
        Message) = sigData m) ∧
    (∀ (verify : List Nat → List Nat → List Nat → Bool) (m : Message)
      (a : Nat) (pk sg : Option (List Nat)) (s p : List Nat),
      verify (sigData (⟨m.version, m.kind, a, m.payload, m.timestamp, pk,
        sg⟩ : Message)) s p = verify (sigData m) s p) := by
  refine ⟨fun m => rfl, fun m1 m2 hv hk hp ht => ?_, fun m a pk sg => rfl,
    fun verify m a pk sg s p => rfl⟩
  simp [signing_bytes, hv, hk, hp, ht]

/-- Witness for C6: `witMsg` (attenuation 0, signed) and the same text with
attenuation 50 and no key or signature share their signing bytes. -/
theorem C6_signing_envelope_witness :
    signing_bytes witMsg =
      signing_bytes (⟨1, 1, 50, [5, 6], 77, none, none⟩ : Message) :=
  C6_signing_envelope.2.1 witMsg
    (⟨1, 1, 50, [5, 6], 77, none, none⟩ : Message) rfl rfl rfl rfl



/-- C9: state before the failing Chat broadcast — three peers, all vectors
of length 3 — and after it, with the write to peer 1 failing: `clients` and
`decoders` shrink to 2 entries but `peer_meta` keeps 3, so the three
parallel vectors are no longer aligned (`src/network_handler.rs` removes
only from `clients` and `decoders` on Chat write failure). -/
theorem C9_chat_broadcast_desync :
    ((⟨[(), (), ()], [Decoder.new, Decoder.new, Decoder.new],
        [none, none, none]⟩ : NetState).clients.length = 3 ∧
      (⟨[(), (), ()], [Decoder.new, Decoder.new, Decoder.new],
        [none, none, none]⟩ : NetState).decoders.length = 3 ∧
      (⟨[(), (), ()], [Decoder.new, Decoder.new, Decoder.new],
        [none, none, none]⟩ : NetState).peer_meta.length = 3) ∧
    ((chatCommand (fun i => !(i == 1))
        (⟨[(), (), ()], [Decoder.new, Decoder.new, Decoder.new],
          [none, none, none]⟩ : NetState) [1]).1.clients.length = 2 ∧
      (chatCommand (fun i => !(i == 1))
        (⟨[(), (), ()], [Decoder.new, Decoder.new, Decoder.new],
          [none, none, none]⟩ : NetState) [1]).1.decoders.length = 2 ∧
      (chatCommand (fun i => !(i == 1))
        (⟨[(), (), ()], [Decoder.new, Decoder.new, Decoder.new],
          [none, none, none]⟩ : NetState) [1]).1.peer_meta.length = 3) := by
  constructor
  · exact ⟨rfl, rfl, rfl⟩
  · exact ⟨rfl, rfl, rfl⟩

/-- C2, counterexample: with a verifier that rejects everything, processing
`dmBad` still calls the DM decryption — and calls it before the signature
verification — and still surfaces the frame (marked invalid) instead of
discarding it. -/
theorem C2_counterexample :
    (handleFrame (fun _ _ _ => false) (fun pl => some pl) (fun _ => ['m'])
        (fun _ => true) 0 1 [none] 0 dmBad).calls =
      [CryptoOp.decryptDm [3, 4],
       CryptoOp.verifySig (sigData dmBad) [7] [6]] ∧
    Event.shown ['m'] SignedState.invalid none ∈
      (handleFrame (fun _ _ _ => false) (fun pl => some pl) (fun _ => ['m'])
        (fun _ => true) 0 1 [none] 0 dmBad).events := by
  constructor
  · rfl
  · decide

/-- C3, counterexample: the peer's stored meta has key `[1]`; a CHAT
carrying the different key `[2]` with a valid signature does not terminate
the connection — no removal happens — and silently replaces the stored
public key. -/
theorem C3_counterexample :
    (handleFrame (fun _ _ _ => true) (fun _ => none) (fun _ => ['h', 'i'])
        (fun _ => true) 0 1 [some ⟨[1], true, 0, none⟩] 0
        chatOtherKey).removeAdds = [] ∧
    (handleFrame (fun _ _ _ => true) (fun _ => none) (fun _ => ['h', 'i'])
        (fun _ => true) 0 1 [some ⟨[1], true, 0, none⟩] 0
        chatOtherKey).meta = [some ⟨[2], true, 5, none⟩] := by
  constructor
  · rfl
  · rfl

/-- C4, counterexample: a HELLO with no public key at all is merely logged:
no DISCONNECT(3) is written, the peer is not marked for removal, and its
meta stays unset. -/
theorem C4_counterexample :
    (handleFrame (fun _ _ _ => true) (fun _ => none) (fun _ => ['@', 'a'])
        (fun _ => true) 0 1 [none] 0 helloNoKeyMsg).writes = [] ∧
    (handleFrame (fun _ _ _ => true) (fun _ => none) (fun _ => ['@', 'a'])
        (fun _ => true) 0 1 [none] 0 helloNoKeyMsg).removeAdds = [] ∧
    (handleFrame (fun _ _ _ => true) (fun _ => none) (fun _ => ['@', 'a'])
        (fun _ => true) 0 1 [none] 0 helloNoKeyMsg).meta = [none] ∧
    (handleFrame (fun _ _ _ => true) (fun _ => none) (fun _ => ['@', 'a'])
        (fun _ => true) 0 1 [none] 0 helloNoKeyMsg).events =
      [Event.helloNoKey 0] := by
  exact ⟨rfl, rfl, rfl, rfl⟩

/-- C8, counterexample: a frame whose displayed text starts with an
'@'-handle of 81 codepoints before the colon, but which is a HELLO whose
missing signature makes the handler `continue` before the handle-length
check: the node writes DISCONNECT(3), not DISCONNECT(1), and emits no
handle-violation event. -/
theorem C8_counterexample :
    longAtText.contains ':' = true ∧
    startsWithAt (rustTrim (longAtText.takeWhile (fun c => c != ':'))) =
      true ∧
    80 ≤ (rustTrim (longAtText.takeWhile (fun c => c != ':'))).length ∧
    (handleFrame (fun _ _ _ => true) (fun _ => none) (fun _ => longAtText)
        (fun _ => true) 0 1 [none] 0 helloLongNoSig).writes =
      [(0, encode (Message.disconnect 0 3))] ∧
    ((0, encode (Message.disconnect 0 1)) ∉
      (handleFrame (fun _ _ _ => true) (fun _ => none)
        (fun _ => longAtText) (fun _ => true) 0 1 [none] 0
        helloLongNoSig).writes) ∧
    (∀ n : Nat, Event.handleViolation 0 n ∉
      (handleFrame (fun _ _ _ => true) (fun _ => none)
        (fun _ => longAtText) (fun _ => true) 0 1 [none] 0
        helloLongNoSig).events) := by
  refine ⟨by decide, by decide, by decide, rfl, by decide, ?_⟩
  have hev : (handleFrame (fun _ _ _ => true) (fun _ => none)
      (fun _ => longAtText) (fun _ => true) 0 1 [none] 0
      helloLongNoSig).events = [Event.helloNoSig 0] := rfl
  intro n
  rw [hev]
  simp



/-- C2 (amended): for a DM frame carrying a key and a signature that does
not verify, the handler still attempts decryption — and does so before the
signature is checked (the decrypt call precedes the verify call in the
crypto-call order) — and still surfaces the frame, marked invalid, instead
of discarding it. -/
theorem C2_dm_decrypted_before_verification
    (verify : List Nat → List Nat → List Nat → Bool)
    (decryptDm : List Nat → Option (List Nat))
    (utf8Lossy : List Nat → List Char) (writeOk : Nat → Bool)
    (now clientsLen : Nat) (meta0 : List (Option PeerMeta)) (src : Nat)
    (msg : Message) (sig pk : List Nat)
    (hk : msg.kind = 2) (hsig : msg.signature = some sig)
    (hpk : msg.public_key = some pk)
    (hbad : verify (sigData msg) sig pk = false) :
    (handleFrame verify decryptDm utf8Lossy writeOk now clientsLen meta0 src
        msg).calls =
      [CryptoOp.decryptDm msg.payload,
       CryptoOp.verifySig (sigData msg) sig pk] ∧
    Event.shown (frameText decryptDm utf8Lossy msg) SignedState.invalid none
      ∈ (handleFrame verify decryptDm utf8Lossy writeOk now clientsLen meta0
          src msg).events := by
  simp [handleFrame, verifyPhase, dispatch, hk, hsig, hpk, hbad]



/-- Trimming never lengthens a string. -/
theorem rustTrim_length_le (l : List Char) : (rustTrim l).length ≤ l.length := by
  unfold rustTrim
  calc ((l.dropWhile Char.isWhitespace).reverse.dropWhile
          Char.isWhitespace).reverse.length
      = ((l.dropWhile Char.isWhitespace).reverse.dropWhile
          Char.isWhitespace).length := List.length_reverse _
    _ ≤ (l.dropWhile Char.isWhitespace).reverse.length :=
        (List.dropWhile_sublist _).length_le
    _ = (l.dropWhile Char.isWhitespace).length := List.length_reverse _
    _ ≤ l.length := (List.dropWhile_sublist _).length_le

/-- Reading back the entry just written. -/
theorem getD_set_self (l : List α) (i : Nat) (a d : α) (h : i < l.length) :
    (l.set i a).getD i d = a := by
  simp [List.getD, List.getElem?_set_self, h]

/-- The handle-length check does not fire on a text shorter than 80
characters. -/
theorem handleCheck_short (now clientsLen src : Nat) (txt : List Char)
    (h : txt.length < 80) :
    handleCheck now clientsLen src txt = ([], [], []) := by
  unfold handleCheck
  by_cases hc : txt.contains ':' = true
  · rw [if_pos hc, if_neg]
    intro hand
    have h1 := rustTrim_length_le (txt.takeWhile (fun c => c != ':'))
    have h2 := (List.takeWhile_sublist (l := txt)
      (fun c => c != ':')).length_le
    omega
  · rw [if_neg hc]



/-- `getD` at an in-range index is plain indexing. -/
theorem getD_eq_getElem_of_lt (l : List α) (i : Nat) (d : α)
    (h : i < l.length) : l.getD i d = l[i] := by
  simp [List.getD_eq_getElem?_getD, List.getElem?_eq_getElem h]

/-- C3 (amended): a stored public key is not immutable and a key mismatch
does not terminate the connection.  A signed CHAT or DM whose key differs
from the stored one silently overwrites `meta.public_key` with the frame's
key (keeping the stored handle, with `last_valid` set to that frame's
verification verdict) and leaves the peer unremoved; and a second HELLO
with a different, validly signed key and a valid handle likewise replaces
the stored key rather than being treated as a validation failure. -/
theorem C3_key_silently_replaced :
    (∀ (verify : List Nat → List Nat → List Nat → Bool)
       (decryptDm : List Nat → Option (List Nat))
       (utf8Lossy : List Nat → List Char) (writeOk : Nat → Bool)
       (now clientsLen : Nat) (meta0 : List (Option PeerMeta)) (src : Nat)
       (msg : Message) (sig pk : List Nat) (pm0 : PeerMeta),
      (msg.kind = 1 ∨ msg.kind = 2) → msg.signature = some sig →
      msg.public_key = some pk → meta0.getD src none = some pm0 →
      pm0.public_key ≠ pk → src < meta0.length →
      (frameText decryptDm utf8Lossy msg).contains ':' = false →
      (handleFrame verify decryptDm utf8Lossy writeOk now clientsLen meta0
          src msg).meta.getD src none =
        some ⟨pk, verify (sigData msg) sig pk, msg.timestamp, pm0.handle⟩ ∧
      src ∉ (handleFrame verify decryptDm utf8Lossy writeOk now clientsLen
          meta0 src msg).removeAdds) ∧
    (∀ (verify : List Nat → List Nat → List Nat → Bool)
       (decryptDm : List Nat → Option (List Nat))
       (utf8Lossy : List Nat → List Char) (writeOk : Nat → Bool)
       (now clientsLen : Nat) (meta0 : List (Option PeerMeta)) (src : Nat)
       (msg : Message) (sig pk : List Nat) (pm0 : PeerMeta),
      msg.kind = 3 → msg.signature = some sig → msg.public_key = some pk →
      meta0.getD src none = some pm0 → pm0.public_key ≠ pk →
      src < meta0.length → verify (sigData msg) sig pk = true →
      startsWithAt (utf8Lossy msg.payload) = true →
      (utf8Lossy msg.payload).length < 80 →
      (handleFrame verify decryptDm utf8Lossy writeOk now clientsLen meta0
          src msg).meta.getD src none =
        some ⟨pk, true, msg.timestamp, some (utf8Lossy msg.payload)⟩ ∧
      src ∉ (handleFrame verify decryptDm utf8Lossy writeOk now clientsLen
          meta0 src msg).removeAdds) := by
  constructor
  · intro verify decryptDm utf8Lossy writeOk now clientsLen meta0 src msg
      sig pk pm0 hk hsig hpk hmeta hdiff hsrc hnc
    have hck : handleCheck now clientsLen src
        (frameText decryptDm utf8Lossy msg) = ([], [], []) := by
      unfold handleCheck
      rw [if_neg (by rw [hnc]; simp)]
    have hm3 : meta0[src] = some pm0 := by
      rw [← getD_eq_getElem_of_lt meta0 src none hsrc]
      exact hmeta
    rcases hk with hk | hk
    · constructor
      · simp [handleFrame, verifyPhase, dispatch, hk, hsig, hpk, hck, hsrc,
          hmeta, hm3, getD_set_self _ _ _ _ hsrc]
      · simp only [handleFrame, verifyPhase, dispatch, hk, hsig, hpk, hck]
        simp [List.mem_filter]
    · constructor
      · simp [handleFrame, verifyPhase, dispatch, hk, hsig, hpk, hck, hsrc,
          hmeta, hm3, getD_set_self _ _ _ _ hsrc]
      · simp [handleFrame, verifyPhase, dispatch, hk, hsig, hpk, hck]
  · intro verify decryptDm utf8Lossy writeOk now clientsLen meta0 src msg
      sig pk pm0 hk hsig hpk hmeta hdiff hsrc hver hstart hlen
    have hck : handleCheck now clientsLen src
        (frameText decryptDm utf8Lossy msg) = ([], [], []) := by
      apply handleCheck_short
      simp [frameText, hk, hlen]
    have hsrc1 : src < (meta0.set src (some ⟨pk,
        verify (sigData msg) sig pk, msg.timestamp,
        (meta0.getD src none).bind (fun pm => pm.handle)⟩)).length := by
      simpa using hsrc
    constructor
    · simp [handleFrame, verifyPhase, dispatch, hk, hsig, hpk, hck, hsrc,
        hver, hstart, hlen, List.set_set, getD_set_self _ _ _ _ hsrc,
        hsrc1]
    · simp [handleFrame, verifyPhase, dispatch, hk, hsig, hpk, hck, hsrc,
        hver, hstart, hlen, hsrc1]



/-- C4 (amended): a HELLO that carries a public key and lacks a signature,
or whose signature fails verification, makes the node write DISCONNECT(3)
to that peer and mark it for removal.  Without a signature the peer's meta
is untouched; with an invalid signature the generic per-frame verification
path has already recorded the frame's key with `last_valid = false` before
the removal.  (A HELLO with no public key at all takes neither path; see
the counterexample.) -/
theorem C4_hello_signature_enforcement :
    (∀ (verify : List Nat → List Nat → List Nat → Bool)
       (decryptDm : List Nat → Option (List Nat))
       (utf8Lossy : List Nat → List Char) (writeOk : Nat → Bool)
       (now clientsLen : Nat) (meta0 : List (Option PeerMeta)) (src : Nat)
       (msg : Message) (pk : List Nat),
      msg.kind = 3 → msg.public_key = some pk → msg.signature = none →
      (handleFrame verify decryptDm utf8Lossy writeOk now clientsLen meta0
          src msg).writes = [(src, encode (Message.disconnect now 3))] ∧
      (handleFrame verify decryptDm utf8Lossy writeOk now clientsLen meta0
          src msg).removeAdds = [src] ∧
      (handleFrame verify decryptDm utf8Lossy writeOk now clientsLen meta0
          src msg).meta = meta0 ∧
      (handleFrame verify decryptDm utf8Lossy writeOk now clientsLen meta0
          src msg).events = [Event.helloNoSig src]) ∧
    (∀ (verify : List Nat → List Nat → List Nat → Bool)
       (decryptDm : List Nat → Option (List Nat))
       (utf8Lossy : List Nat → List Char) (writeOk : Nat → Bool)
       (now clientsLen : Nat) (meta0 : List (Option PeerMeta)) (src : Nat)
       (msg : Message) (pk sig : List Nat),
      msg.kind = 3 → msg.public_key = some pk → msg.signature = some sig →
      verify (sigData msg) sig pk = false →
      (handleFrame verify decryptDm utf8Lossy writeOk now clientsLen meta0
          src msg).writes = [(src, encode (Message.disconnect now 3))] ∧
      (handleFrame verify decryptDm utf8Lossy writeOk now clientsLen meta0
          src msg).removeAdds = [src] ∧
      (handleFrame verify decryptDm utf8Lossy writeOk now clientsLen meta0
          src msg).events = [Event.badHelloSig src] ∧
      (handleFrame verify decryptDm utf8Lossy writeOk now clientsLen meta0
          src msg).meta =
        (if src < meta0.length then
          meta0.set src (some ⟨pk, false, msg.timestamp,
            (meta0.getD src none).bind (fun pm => pm.handle)⟩)
         else meta0)) := by
  constructor
  · intro verify decryptDm utf8Lossy writeOk now clientsLen meta0 src msg
      pk hk hpk hsig
    refine ⟨?_, ?_, ?_, ?_⟩ <;>
      simp [handleFrame, verifyPhase, dispatch, hk, hpk, hsig]
  · intro verify decryptDm utf8Lossy writeOk now clientsLen meta0 src msg
      pk sig hk hpk hsig hver
    refine ⟨?_, ?_, ?_, ?_⟩ <;>
      simp [handleFrame, verifyPhase, dispatch, hk, hpk, hsig, hver]

/-- Any write the handle-length check makes is the reason-1 disconnect to
the source. -/
theorem handleCheck_writes (now clientsLen src : Nat) (txt : List Char) :
    ∀ w ∈ (handleCheck now clientsLen src txt).2.1,
      w = (src, encode (Message.disconnect now 1)) := by
  intro w hw
  unfold handleCheck at hw
  by_cases h1 : txt.contains ':' = true
  · rw [if_pos h1] at hw
    by_cases h2 : startsWithAt (rustTrim (txt.takeWhile
        (fun c => c != ':'))) = true ∧
        80 ≤ (rustTrim (txt.takeWhile (fun c => c != ':'))).length
    · rw [if_pos h2] at hw
      by_cases h3 : src < clientsLen
      · simp [h3] at hw
        simp [hw]
      · simp [h3] at hw
    · rw [if_neg h2] at hw
      simp at hw
  · rw [if_neg h1] at hw
    simp at hw

/-- C7: a CHAT frame that does not trigger the handle-length removal of its
source is re-encoded byte-identically and written to every peer except the
source, and exactly the targets whose write fails are marked for removal;
a DM frame is never relayed — any write it causes can only be the reason-1
disconnect to its own source. -/
theorem C7_chat_relay_dm_no_relay :
    (∀ (verify : List Nat → List Nat → List Nat → Bool)
       (decryptDm : List Nat → Option (List Nat))
       (utf8Lossy : List Nat → List Char) (writeOk : Nat → Bool)
       (now clientsLen : Nat) (meta0 : List (Option PeerMeta)) (src : Nat)
       (msg : Message),
      msg.kind = 1 →
      handleCheck now clientsLen src (frameText decryptDm utf8Lossy msg) =
        ([], [], []) →
      (handleFrame verify decryptDm utf8Lossy writeOk now clientsLen meta0
          src msg).writes =
        ((List.range clientsLen).filter (fun i => i != src)).map
          (fun i => (i, encode msg)) ∧
      (handleFrame verify decryptDm utf8Lossy writeOk now clientsLen meta0
          src msg).removeAdds =
        (((List.range clientsLen).filter (fun i => i != src)).filter
          (fun i => !(writeOk i)))) ∧
    (∀ (verify : List Nat → List Nat → List Nat → Bool)
       (decryptDm : List Nat → Option (List Nat))
       (utf8Lossy : List Nat → List Char) (writeOk : Nat → Bool)
       (now clientsLen : Nat) (meta0 : List (Option PeerMeta)) (src : Nat)
       (msg : Message),
      msg.kind = 2 →
      ∀ w ∈ (handleFrame verify decryptDm utf8Lossy writeOk now clientsLen
          meta0 src msg).writes,
        w = (src, encode (Message.disconnect now 1))) := by
  constructor
  · intro verify decryptDm utf8Lossy writeOk now clientsLen meta0 src msg
      hk hck
    constructor <;> simp [handleFrame, dispatch, hk, hck]
  · intro verify decryptDm utf8Lossy writeOk now clientsLen meta0 src msg
      hk w hw
    simp only [handleFrame, dispatch, hk] at hw
    norm_num at hw
    exact handleCheck_writes now clientsLen src _ w hw



/-- C8 (amended): for a received frame whose displayed text contains a
colon with a trimmed '@'-prefixed portion of at least 80 codepoints before
it, the node writes DISCONNECT(1) to the in-range source, marks the source
for removal, and emits the violation event carrying the peer id and the
handle length — provided the frame is not a HELLO whose missing or invalid
signature skips the check (CHAT, DM and DISCONNECT frames always reach it,
and a HELLO only after its signature verified). -/
theorem C8_handle_length_disconnect
    (verify : List Nat → List Nat → List Nat → Bool)
    (decryptDm : List Nat → Option (List Nat))
    (utf8Lossy : List Nat → List Char) (writeOk : Nat → Bool)
    (now clientsLen : Nat) (meta0 : List (Option PeerMeta)) (src : Nat)
    (msg : Message) (hsrc : src < clientsLen)
    (hkind : msg.kind = 1 ∨ msg.kind = 2 ∨ msg.kind = 4 ∨
      (msg.kind = 3 ∧ ∃ pk sig, msg.public_key = some pk ∧
        msg.signature = some sig ∧ verify (sigData msg) sig pk = true))
    (hcolon : (frameText decryptDm utf8Lossy msg).contains ':' = true)
    (hstart : startsWithAt (rustTrim ((frameText decryptDm utf8Lossy
      msg).takeWhile (fun c => c != ':'))) = true)
    (hlen : 80 ≤ (rustTrim ((frameText decryptDm utf8Lossy
      msg).takeWhile (fun c => c != ':'))).length) :
    (src, encode (Message.disconnect now 1)) ∈
      (handleFrame verify decryptDm utf8Lossy writeOk now clientsLen meta0
        src msg).writes ∧
    src ∈ (handleFrame verify decryptDm utf8Lossy writeOk now clientsLen
        meta0 src msg).removeAdds ∧
    Event.handleViolation src (rustTrim ((frameText decryptDm utf8Lossy
        msg).takeWhile (fun c => c != ':'))).length ∈
      (handleFrame verify decryptDm utf8Lossy writeOk now clientsLen meta0
        src msg).events := by
  have hck : handleCheck now clientsLen src
      (frameText decryptDm utf8Lossy msg) =
      ([Event.handleViolation src (rustTrim ((frameText decryptDm utf8Lossy
          msg).takeWhile (fun c => c != ':'))).length],
       [(src, encode (Message.disconnect now 1))], [src]) := by
    unfold handleCheck
    rw [if_pos hcolon, if_pos ⟨hstart, hlen⟩, if_pos hsrc]
  rcases hkind with hk | hk | hk | ⟨hk, pk, sig, hpk, hsig, hver⟩
  · refine ⟨?_, ?_, ?_⟩ <;> simp [handleFrame, dispatch, hk, hck]
  · refine ⟨?_, ?_, ?_⟩ <;> simp [handleFrame, dispatch, hk, hck]
  · refine ⟨?_, ?_, ?_⟩ <;> simp [handleFrame, dispatch, hk, hck]
  · refine ⟨?_, ?_, ?_⟩ <;>
      simp [handleFrame, dispatch, verifyPhase, hk, hck, hpk, hsig, hver]



/-- Witness for C2: `dmBad` processed with a rejecting verifier. -/
theorem C2_dm_decrypted_before_verification_witness :
    dmBad.kind = 2 ∧
    (handleFrame (fun _ _ _ => false) (fun pl => some pl) (fun _ => ['m'])
        (fun _ => true) 9 2 [none] 0 dmBad).calls =
      [CryptoOp.decryptDm dmBad.payload,
       CryptoOp.verifySig (sigData dmBad) [7] [6]] ∧
    Event.shown (frameText (fun pl => some pl) (fun _ => ['m']) dmBad)
        SignedState.invalid none ∈
      (handleFrame (fun _ _ _ => false) (fun pl => some pl) (fun _ => ['m'])
        (fun _ => true) 9 2 [none] 0 dmBad).events :=
  ⟨rfl,
   (C2_dm_decrypted_before_verification _ _ _ _ 9 2 [none] 0 dmBad [7] [6]
     rfl rfl rfl rfl).1,
   (C2_dm_decrypted_before_verification _ _ _ _ 9 2 [none] 0 dmBad [7] [6]
     rfl rfl rfl rfl).2⟩

/-- Witness for C3: a signed CHAT and a second HELLO, each with key `[2]`
against stored key `[1]`, both replacing the key without removal. -/
theorem C3_key_silently_replaced_witness :
    ((handleFrame (fun _ _ _ => true) (fun _ => none) (fun _ => ['h', 'i'])
        (fun _ => true) 0 1 [some ⟨[1], true, 0, none⟩] 0
        chatOtherKey).meta.getD 0 none = some ⟨[2], true, 5, none⟩ ∧
      0 ∉ (handleFrame (fun _ _ _ => true) (fun _ => none)
        (fun _ => ['h', 'i']) (fun _ => true) 0 1
        [some ⟨[1], true, 0, none⟩] 0 chatOtherKey).removeAdds) ∧
    ((handleFrame (fun _ _ _ => true) (fun _ => none) (fun _ => ['@', 'b'])
        (fun _ => true) 0 1 [some ⟨[1], true, 0, none⟩] 0
        helloNewKey).meta.getD 0 none = some ⟨[2], true, 6, some ['@', 'b']⟩ ∧
      0 ∉ (handleFrame (fun _ _ _ => true) (fun _ => none)
        (fun _ => ['@', 'b']) (fun _ => true) 0 1
        [some ⟨[1], true, 0, none⟩] 0 helloNewKey).removeAdds) :=
  ⟨C3_key_silently_replaced.1 _ _ _ _ 0 1 [some ⟨[1], true, 0, none⟩] 0
      chatOtherKey [9] [2] ⟨[1], true, 0, none⟩ (Or.inl rfl) rfl rfl rfl
      (by decide) (by decide) (by decide),
   C3_key_silently_replaced.2 _ _ _ _ 0 1 [some ⟨[1], true, 0, none⟩] 0
      helloNewKey [9] [2] ⟨[1], true, 0, none⟩ rfl rfl rfl rfl
      (by decide) (by decide) rfl (by decide) (by decide)⟩

/-- Witness for C4: an unsigned HELLO and a badly signed HELLO, both with a
key, both disconnected with reason 3 and marked for removal. -/
theorem C4_hello_signature_enforcement_witness :
    ((handleFrame (fun _ _ _ => true) (fun _ => none) (fun _ => ['@', 'c'])
        (fun _ => true) 4 1 [none] 0 helloNoSigPk).writes =
        [(0, encode (Message.disconnect 4 3))] ∧
      (handleFrame (fun _ _ _ => true) (fun _ => none) (fun _ => ['@', 'c'])
        (fun _ => true) 4 1 [none] 0 helloNoSigPk).removeAdds = [0] ∧
      (handleFrame (fun _ _ _ => true) (fun _ => none) (fun _ => ['@', 'c'])
        (fun _ => true) 4 1 [none] 0 helloNoSigPk).meta = [none] ∧
      (handleFrame (fun _ _ _ => true) (fun _ => none) (fun _ => ['@', 'c'])
        (fun _ => true) 4 1 [none] 0 helloNoSigPk).events =
        [Event.helloNoSig 0]) ∧
    ((handleFrame (fun _ _ _ => false) (fun _ => none) (fun _ => ['@', 'c'])
        (fun _ => true) 4 1 [none] 0 helloBadSig).writes =
        [(0, encode (Message.disconnect 4 3))] ∧
      (handleFrame (fun _ _ _ => false) (fun _ => none) (fun _ => ['@', 'c'])
        (fun _ => true) 4 1 [none] 0 helloBadSig).removeAdds = [0] ∧
      (handleFrame (fun _ _ _ => false) (fun _ => none) (fun _ => ['@', 'c'])
        (fun _ => true) 4 1 [none] 0 helloBadSig).events =
        [Event.badHelloSig 0] ∧
      (handleFrame (fun _ _ _ => false) (fun _ => none) (fun _ => ['@', 'c'])
        (fun _ => true) 4 1 [none] 0 helloBadSig).meta =
        (if 0 < ([none] : List (Option PeerMeta)).length then
          ([none] : List (Option PeerMeta)).set 0 (some ⟨[5], false, 7,
            (([none] : List (Option PeerMeta)).getD 0 none).bind
              (fun pm => pm.handle)⟩)
         else [none])) :=
  ⟨C4_hello_signature_enforcement.1 _ _ _ _ 4 1 [none] 0 helloNoSigPk [5]
      rfl rfl rfl,
   C4_hello_signature_enforcement.2 _ _ _ _ 4 1 [none] 0 helloBadSig [5]
      [6] rfl rfl rfl rfl⟩

/-- Witness for C7: a CHAT relayed from source 0 to peers 1 and 2 with the
write to peer 2 failing, and a DM followed through every write. -/
theorem C7_chat_relay_dm_no_relay_witness :
    ((handleFrame (fun _ _ _ => true) (fun _ => none) (fun _ => ['h', 'i'])
        (fun i => !(i == 2)) 0 3 [none, none, none] 0 chatOtherKey).writes =
        ((List.range 3).filter (fun i => i != 0)).map
          (fun i => (i, encode chatOtherKey)) ∧
      (handleFrame (fun _ _ _ => true) (fun _ => none) (fun _ => ['h', 'i'])
        (fun i => !(i == 2)) 0 3 [none, none, none] 0
        chatOtherKey).removeAdds =
        (((List.range 3).filter (fun i => i != 0)).filter
          (fun i => !((fun i => !(i == 2)) i)))) ∧
    (∀ w ∈ (handleFrame (fun _ _ _ => false) (fun pl => some pl)
        (fun _ => ['m']) (fun _ => true) 9 2 [none] 0 dmBad).writes,
      w = (0, encode (Message.disconnect 9 1))) :=
  ⟨C7_chat_relay_dm_no_relay.1 _ _ _ _ 0 3 [none, none, none] 0
      chatOtherKey rfl (by decide),
   C7_chat_relay_dm_no_relay.2 _ _ _ _ 9 2 [none] 0 dmBad rfl⟩

/-- Witness for C8: a CHAT displaying an 81-codepoint '@'-handle before the
colon gets DISCONNECT(1), removal, and the violation event. -/
theorem C8_handle_length_disconnect_witness :
    chatLong.kind = 1 ∧
    (0, encode (Message.disconnect 5 1)) ∈
      (handleFrame (fun _ _ _ => true) (fun _ => none) (fun _ => longAtText)
        (fun _ => true) 5 1 [none] 0 chatLong).writes ∧
    0 ∈ (handleFrame (fun _ _ _ => true) (fun _ => none)
        (fun _ => longAtText) (fun _ => true) 5 1 [none] 0
        chatLong).removeAdds ∧
    Event.handleViolation 0 (rustTrim ((frameText (fun _ => none)
        (fun _ => longAtText) chatLong).takeWhile
        (fun c => c != ':'))).length ∈
      (handleFrame (fun _ _ _ => true) (fun _ => none)
        (fun _ => longAtText) (fun _ => true) 5 1 [none] 0
        chatLong).events :=
  ⟨rfl,
   (C8_handle_length_disconnect _ _ _ _ 5 1 [none] 0 chatLong (by decide)
     (Or.inl rfl) (by decide) (by decide) (by decide)).1,
   (C8_handle_length_disconnect _ _ _ _ 5 1 [none] 0 chatLong (by decide)
     (Or.inl rfl) (by decide) (by decide) (by decide)).2.1,
   (C8_handle_length_disconnect _ _ _ _ 5 1 [none] 0 chatLong (by decide)
     (Or.inl rfl) (by decide) (by decide) (by decide)).2.2⟩

end Handler
